import Mathlib

/-!
Shallow embedding of the RAG Telegram-bot core of this repository:
the message handler and resource initialization of `bot.py`, the vector-store
initialization of `embeddings.py`, and the LLM-pipeline cache of `chains.py`.

Text is modelled as `List Char` (Python strings index by code point, as
`List Char` does); external effects (retrieval, chain invocation, database
writes, message edits) are oracles passed as explicit arguments, so each
code path of the handler becomes a value of an explicit outcome record.
-/

namespace LFPBot

/-- Python strings are sequences of code points; we embed them as `List Char`. -/
abbrev Str := List Char

/-- The whitespace characters of Python's `str.strip` / `\s` (ASCII range). -/
def isPyWS (c : Char) : Bool :=
  c == ' ' || c == '\t' || c == '\n' || c == '\r' || c == '\x0b' || c == '\x0c'

/-- Python `str.strip()`: drop whitespace from both ends. -/
def pyStrip (l : Str) : Str :=
  ((l.dropWhile isPyWS).reverse.dropWhile isPyWS).reverse

/-- Fuel-driven worker for `pySplit`; fuel bounds the number of consumed
characters, so `length + 1` fuel always suffices. -/
def pySplitAux (sep : Str) : Nat → Str → Str → List Str
  | 0, acc, l => [acc.reverse ++ l]
  | _ + 1, acc, [] => [acc.reverse]
  | fuel + 1, acc, c :: cs =>
    if sep.isPrefixOf (c :: cs) then
      acc.reverse :: pySplitAux sep fuel [] (List.drop (sep.length - 1) cs)
    else
      pySplitAux sep fuel (c :: acc) cs

/-- Python `s.split(sep)` for a non-empty separator: non-overlapping,
left-to-right. -/
def pySplit (l sep : Str) : List Str :=
  pySplitAux sep (l.length + 1) [] l

/-- Fuel-driven worker for `pyReplace`. -/
def pyReplaceAux (pat repl : Str) : Nat → Str → Str
  | 0, l => l
  | _ + 1, [] => []
  | fuel + 1, c :: cs =>
    if pat.isPrefixOf (c :: cs) then
      repl ++ pyReplaceAux pat repl fuel (List.drop (pat.length - 1) cs)
    else
      c :: pyReplaceAux pat repl fuel cs

/-- Python `s.replace(pat, repl)` for a non-empty pattern: non-overlapping,
left-to-right. -/
def pyReplace (l pat repl : Str) : Str :=
  if pat.isEmpty then l else pyReplaceAux pat repl (l.length + 1) l

/-- Python `pat in s` (substring containment). -/
def containsSub : Str → Str → Bool
  | [], pat => pat.isEmpty
  | c :: cs, pat => pat.isPrefixOf (c :: cs) || containsSub cs pat

/-- Worker for `collapseWS`: `prevWS` records whether the previous character
belonged to a whitespace run already replaced by one space. -/
def collapseWSAux (prevWS : Bool) : Str → Str
  | [] => []
  | c :: cs =>
    if isPyWS c then
      (if prevWS then [] else [' ']) ++ collapseWSAux true cs
    else
      c :: collapseWSAux false cs

/-- Python `re.sub(r'\s+', ' ', s)`: each maximal whitespace run becomes one
space. -/
def collapseWS (l : Str) : Str := collapseWSAux false l

/-! ## Post-processing of the raw generation output (`bot.py`, lines 254-282) -/

/-- The role tag whose last occurrence delimits the assistant's reply. -/
def tagAssistant : Str := "<|im_start|>assistant".data

/-- Structural template marker stripped from the answer. -/
def tagStart : Str := "<|im_start|>".data

/-- Structural template marker stripped from the answer. -/
def tagEnd : Str := "<|im_end|>".data

/-- First line of the system prompt; any echoed copy and everything after it
is cut away. -/
def rolePromptMarker : Str := "# Роль и задачи ассистента".data

/-- Suffix appended when the answer is cut to the maximum length. -/
def truncationNotice : Str := "\n\n[Ответ обрезан из-за ограничений Telegram]".data

/-- Maximum answer length before truncation (`bot.py`, line 278). -/
def MAX_ANSWER_LEN : Nat := 4000

/-- `bot.py` lines 255-259: `answer = result.get("result", "").strip()`, and
when that is empty and the result dict is truthy, `answer = str(result)`.
`resultField` is the value of the result key, `resultRepr` is `str(result)`. -/
def extractAnswer (resultField resultRepr : Str) : Str :=
  let a := pyStrip resultField
  if a.isEmpty then resultRepr else a

/-- `bot.py` lines 261-275: keep the text after the last
`<|im_start|>assistant`, delete the remaining role tags and strip, cut at an
echoed system prompt, then collapse whitespace runs and strip. -/
def sanitize (answer : Str) : Str :=
  let a1 := if containsSub answer tagAssistant then
      (pySplit answer tagAssistant).getLastD [] else answer
  let a2 := pyStrip (pyReplace (pyReplace a1 tagStart []) tagEnd [])
  let a3 := if containsSub a2 rolePromptMarker then
      pyStrip ((pySplit a2 rolePromptMarker).headD []) else a2
  pyStrip (collapseWS a3)

/-- `bot.py` lines 261-280: sanitize, then if the answer exceeds 4000
characters cut it to 4000 and append the truncation notice. -/
def postprocess (answer : Str) : Str :=
  let s := sanitize answer
  if s.length > MAX_ANSWER_LEN then s.take MAX_ANSWER_LEN ++ truncationNotice else s

/-- Whether the truncation branch of `bot.py` line 278 fires (the spec's
`truncated` flag of an Answer). -/
def answerTruncated (answer : Str) : Bool :=
  (sanitize answer).length > MAX_ANSWER_LEN

/-! ## User-facing message templates of `bot.py` -/

/-- `bot.py` line 177. -/
def msgNotReadyHead : Str := "Бот еще не инициализирован. ".data

/-- `bot.py` line 179. -/
def msgInitCauseHead : Str := "Ошибка инициализации: ".data

/-- `bot.py` line 181. -/
def msgRetryLater : Str := "Попробуйте через 30 секунд.".data

/-- `bot.py` line 196. -/
def msgEmptyQuery : Str := "Пожалуйста, введите текст запроса.".data

/-- `bot.py` line 200. -/
def msgTooShort : Str :=
  "Пожалуйста, задайте более развернутый вопрос (минимум 3 символа).".data

/-- `bot.py` line 204. -/
def msgTooLong : Str :=
  "Ваш запрос слишком длинный. Пожалуйста, ограничьтесь 1000 символами.".data

/-- `bot.py` line 213. -/
def msgProcessing : Str := "⏳ Обрабатываю ваш запрос...".data

/-- `bot.py` lines 321-324: the single generic failure template of the outer
exception handler. -/
def msgGenericError : Str :=
  ("Извините, при обработке вашего запроса произошла ошибка. " ++
   "Попробуйте переформулировать вопрос или повторить позже.").data

/-- `bot.py` lines 315-318: shown when editing in the final answer fails. -/
def msgSendFailed : Str :=
  ("Произошла ошибка при отправке ответа. " ++
   "Попробуйте задать вопрос снова.").data

/-- `bot.py` lines 176-184: the not-ready reply, embedding the recorded
initialization failure cause when one is known. -/
def notReadyMessage (err : Option Str) : Str :=
  msgNotReadyHead ++ (match err with
    | some e => msgInitCauseHead ++ e
    | none => msgRetryLater)

/-! ## The message handler (`bot.py`, `handle_message`) -/

/-- The module-level globals of `bot.py` the handler reads: `is_initialized`,
`initialization_error`, and the truthiness of `qa_chain`. -/
structure BotState where
  is_initialized : Bool
  initialization_error : Option Str
  qa_chain : Bool
  deriving DecidableEq

/-- The possible shapes of the value returned by `qa_chain(chain_input)`:
falsy (`if not result` fires), or a truthy dict whose result key holds
`resultField` and whose `str()` is `resultRepr`. -/
inductive ChainValue where
  | falsy
  | dict (resultField : Str) (resultRepr : Str)
  deriving DecidableEq

deriving instance DecidableEq for Except

/-- Oracles for the handler's external effects: the retriever call (document
page contents or the raised exception's text), the chain call, whether the
audit-log commit succeeds, and whether editing the processing message into
the final answer succeeds. -/
structure Env where
  retrieval : Except Str (List Str)
  chain : Except Str ChainValue
  dbWriteOk : Bool
  editOk : Bool
  deriving DecidableEq

/-- The `SessionLog` row written by `bot.py` lines 293-299
(`flask_app/models.py`). -/
structure LogRecord where
  user_id : Int
  username : Str
  query : Str
  response : Str
  deriving DecidableEq

/-- Observable outcome of one `handle_message` run: replies sent with
`reply_text` in order, the final answer delivered by editing the processing
message (none when not reached or the edit failed), the committed audit row,
and which pipeline stages were invoked. -/
structure Outcome where
  messages : List Str
  editedAnswer : Option Str
  logRecord : Option LogRecord
  retrievalInvoked : Bool
  chainInvoked : Bool
  logAttempted : Bool
  deriving DecidableEq

/-- An outcome that only replies, touching no pipeline stage. -/
def replyOnly (ms : List Str) : Outcome :=
  { messages := ms, editedAnswer := none, logRecord := none,
    retrievalInvoked := false, chainInvoked := false, logAttempted := false }

/-- `bot.py` lines 165-331, `handle_message`, as a function of the globals,
the effect oracles, and the message data (`text` is `update.message.text or
''`). Every exception path inside the pipeline is caught by the outer handler
of lines 320-331, which replies with the fixed generic template. -/
def handle_message (st : BotState) (env : Env) (uid : Int)
    (username : Option Str) (text : Str) : Outcome :=
  if !st.is_initialized then
    replyOnly [notReadyMessage st.initialization_error]
  else
    let query := pyStrip text
    if query.isEmpty then replyOnly [msgEmptyQuery]
    else if query.length < 3 then replyOnly [msgTooShort]
    else if query.length > 1000 then replyOnly [msgTooLong]
    else if !st.qa_chain then
      replyOnly [msgGenericError]
    else
      match env.retrieval with
      | .error _ =>
        { messages := [msgProcessing, msgGenericError], editedAnswer := none,
          logRecord := none, retrievalInvoked := true, chainInvoked := false,
          logAttempted := false }
      | .ok _docs =>
        match env.chain with
        | .error _ =>
          { messages := [msgProcessing, msgGenericError], editedAnswer := none,
            logRecord := none, retrievalInvoked := true, chainInvoked := true,
            logAttempted := false }
        | .ok .falsy =>
          { messages := [msgProcessing, msgGenericError], editedAnswer := none,
            logRecord := none, retrievalInvoked := true, chainInvoked := true,
            logAttempted := false }
        | .ok (.dict rf rp) =>
          let answer := postprocess (extractAnswer rf rp)
          let record : LogRecord :=
            { user_id := uid, username := username.getD "unknown".data,
              query := query, response := answer.take 2000 }
          { messages :=
              msgProcessing :: (if env.editOk then [] else [msgSendFailed]),
            editedAnswer := if env.editOk then some answer else none,
            logRecord := if env.dbWriteOk then some record else none,
            retrievalInvoked := true, chainInvoked := true,
            logAttempted := true }

/-! ## Resource initialization (`bot.py`, `initialize_resources`) -/

/-- Outcome of `init_vector_store()` as seen by `initialize_resources`:
a `VectorStoreInitializationError` with its message, any other exception with
its message, or a return value of the given truthiness. -/
inductive VSInit where
  | vsError (msg : Str)
  | unexpected (msg : Str)
  | ok (truthy : Bool)
  deriving DecidableEq

/-- Outcome of `init_qa_chain(retriever)`: an exception with its message, or
a returned `(qa_chain, system_prompt)` with the chain's truthiness. -/
inductive QAInit where
  | qaError (msg : Str)
  | ok (truthy : Bool) (system_prompt : Str)
  deriving DecidableEq

/-- The state `initialize_resources` leaves behind: its return value, the
globals `is_initialized` and `initialization_error`, and whether
`init_qa_chain` was ever invoked. -/
structure InitResult where
  ret : Bool
  is_initialized : Bool
  initialization_error : Option Str
  qaAttempted : Bool
  deriving DecidableEq

/-- Whether the vector-store stage succeeded (returned a truthy retriever). -/
def vsOk : VSInit → Bool
  | .ok true => true
  | _ => false

/-- Whether the QA-chain stage succeeded (returned a truthy chain). -/
def qaOk : QAInit → Bool
  | .ok true _ => true
  | _ => false

/-- `bot.py` lines 87-153, `initialize_resources`: reset the flags, run
`init_vector_store` (a falsy return raises `ValueError`, caught by the
generic except clause), and only on its success run `init_qa_chain`
(likewise); `is_initialized` is set only after both succeed. -/
def initialize_resources (vs : VSInit) (qa : QAInit) : InitResult :=
  match vs with
  | .vsError m =>
    { ret := false, is_initialized := false,
      initialization_error :=
        some ("Failed to initialize vector store: ".data ++ m),
      qaAttempted := false }
  | .unexpected m =>
    { ret := false, is_initialized := false,
      initialization_error :=
        some ("Unexpected error initializing vector store: ".data ++ m),
      qaAttempted := false }
  | .ok false =>
    { ret := false, is_initialized := false,
      initialization_error :=
        some ("Unexpected error initializing vector store: ".data ++
          "Vector store initialization returned None".data),
      qaAttempted := false }
  | .ok true =>
    match qa with
    | .qaError m =>
      { ret := false, is_initialized := false,
        initialization_error :=
          some ("Failed to initialize QA chain: ".data ++ m),
        qaAttempted := true }
    | .ok false _ =>
      { ret := false, is_initialized := false,
        initialization_error :=
          some ("Failed to initialize QA chain: ".data ++
            "QA chain initialization returned None".data),
        qaAttempted := true }
    | .ok true _ =>
      { ret := true, is_initialized := true,
        initialization_error := none, qaAttempted := true }

/-! ## Vector-store initialization (`embeddings.py`, `init_vector_store`) -/

/-- The text inserted into every freshly created store
(`embeddings.py` line 154: `vectordb.add_texts(["Initial empty document"])`). -/
def initialDocumentText : Str := "Initial empty document".data

/-- `embeddings.py` lines 18-184, `init_vector_store`, with its external
effects as oracles: `embed` is the embeddings-model load, `dbExists` is
`os.path.exists(persist_dir) and os.listdir(persist_dir)`, `loadRes` is the
`Chroma(persist_directory=..)` load giving the stored texts, `buildRes` is
the creation of a fresh store. A fresh store holds exactly the one dummy
text added at line 154. Every error escaping the body is rewrapped by the
outermost handler as a `VectorStoreInitializationError` whose message starts
with the critical-error text. The returned value is the list of texts the
resulting store holds. -/
def init_vector_store (embed : Except Str Unit) (dbExists : Bool)
    (loadRes : Except Str (List Str)) (buildRes : Except Str Unit) :
    Except Str (List Str) :=
  match embed with
  | .error e =>
    .error ("Critical error in vector store initialization: ".data ++
      "Failed to load embeddings model: ".data ++ e)
  | .ok _ =>
    let buildNew : Except Str (List Str) :=
      match buildRes with
      | .ok _ => .ok [initialDocumentText]
      | .error e =>
        .error ("Critical error in vector store initialization: ".data ++
          "Failed to create new vector database: ".data ++ e ++
          (if containsSub e "_type".data then
            ("\nThis error is often caused by incompatible ChromaDB versions " ++
             "or corrupted database files. " ++
             "The database directory has been cleared. Please try again.").data
           else []))
    if dbExists then
      match loadRes with
      | .ok texts => .ok texts
      | .error _ => buildNew
    else buildNew

/-- Modelled from the spec: nearest-neighbor retrieval over the stored
chunks (`retriever.get_relevant_documents`, a `langchain`/Chroma similarity
search with `k = 5`, not part of this repository). Per the spec it returns
the top `k` stored chunks best-first and an empty sequence for an empty
index; the similarity ranking itself is abstracted as the storage order,
which no proved property depends on (only cardinality and membership of the
result matter below). -/
def retrieve (store : List Str) (_query : Str) (k : Nat) : List Str :=
  store.take k

/-- `bot.py` line 222: the retrieved page contents joined by blank lines
form the context section handed to prompt assembly. -/
def joinDocs (docs : List Str) : Str :=
  List.intercalate "\n\n".data docs

/-! ## LLM pipeline cache (`chains.py`, `init_llm_pipeline`) -/

/-- `chains.py` lines 59-235, `init_llm_pipeline`, with the expensive model
load abstracted as an oracle producing an opaque handle (or raising): when
the global `_llm_pipe` cache is populated the function returns it at once
(lines 62-63); otherwise it performs the load and caches the handle (lines
230-231), or propagates the error leaving the cache empty (lines 233-235).
Returns the new cache, the call's result, and whether the load ran. -/
def init_llm_pipeline (cache : Option Nat) (load : Except Str Nat) :
    Option Nat × Except Str Nat × Bool :=
  match cache with
  | some p => (some p, .ok p, false)
  | none =>
    match load with
    | .ok p => (some p, .ok p, true)
    | .error e => (none, .error e, true)

/-- A sequence of `init_llm_pipeline` calls threading the `_llm_pipe` cache,
each with its own load oracle; returns each call's result and whether it
performed a load. -/
def runInitSequence : Option Nat → List (Except Str Nat) →
    List (Except Str Nat × Bool)
  | _, [] => []
  | cache, l :: ls =>
    let r := init_llm_pipeline cache l
    (r.2.1, r.2.2) :: runInitSequence r.1 ls

/-- A pipeline stage raised (or the chain returned a falsy result, raising
`ValueError`): every such run is caught by the outer handler of `bot.py`
lines 320-331. -/
def pipelineFailed (env : Env) : Prop :=
  (∃ e, env.retrieval = .error e) ∨ (∃ e, env.chain = .error e) ∨
    env.chain = .ok ChainValue.falsy

/-! ## Helper lemmas: the string pipeline on plain character runs -/

theorem isPrefixOf_cons_ne (p : Char) (ps : Str) (c : Char) (cs : Str)
    (h : (p == c) = false) :
    List.isPrefixOf (p :: ps) (c :: cs) = false := by
  simp [List.isPrefixOf, h]

theorem containsSub_eq_false (p : Char) (ps : Str) (l : Str)
    (hl : ∀ c ∈ l, (p == c) = false) :
    containsSub l (p :: ps) = false := by
  induction l with
  | nil => rfl
  | cons c cs ih =>
    simp only [containsSub, Bool.or_eq_false_iff]
    refine ⟨isPrefixOf_cons_ne _ _ _ _ (hl c (by simp)), ih ?_⟩
    intro d hd
    exact hl d (by simp [hd])

theorem pyReplaceAux_id (p : Char) (ps repl : Str) :
    ∀ (fuel : Nat) (l : Str), (∀ c ∈ l, (p == c) = false) →
      pyReplaceAux (p :: ps) repl fuel l = l := by
  intro fuel
  induction fuel with
  | zero => intro l _; rfl
  | succ n ih =>
    intro l hl
    cases l with
    | nil => rfl
    | cons c cs =>
      rw [pyReplaceAux, if_neg]
      · rw [ih cs (fun d hd => hl d (by simp [hd]))]
      · simp [isPrefixOf_cons_ne _ _ _ _ (hl c (by simp))]

theorem pyReplace_id (p : Char) (ps repl : Str) (l : Str)
    (hl : ∀ c ∈ l, (p == c) = false) :
    pyReplace l (p :: ps) repl = l := by
  rw [pyReplace, if_neg (by simp [List.isEmpty])]
  exact pyReplaceAux_id p ps repl _ l hl

theorem dropWhile_isPyWS_id (l : Str) (hl : ∀ c ∈ l, isPyWS c = false) :
    l.dropWhile isPyWS = l := by
  cases l with
  | nil => rfl
  | cons c cs => simp [List.dropWhile, hl c (by simp)]

theorem pyStrip_id (l : Str) (hl : ∀ c ∈ l, isPyWS c = false) :
    pyStrip l = l := by
  rw [pyStrip, dropWhile_isPyWS_id l hl,
    dropWhile_isPyWS_id l.reverse (fun c hc => hl c (List.mem_reverse.mp hc)),
    List.reverse_reverse]

theorem collapseWSAux_id (b : Bool) (l : Str)
    (hl : ∀ c ∈ l, isPyWS c = false) : collapseWSAux b l = l := by
  induction l generalizing b with
  | nil => rfl
  | cons c cs ih =>
    rw [collapseWSAux, if_neg (by simp [hl c (by simp)])]
    rw [ih false (fun d hd => hl d (by simp [hd]))]

theorem collapseWS_id (l : Str) (hl : ∀ c ∈ l, isPyWS c = false) :
    collapseWS l = l :=
  collapseWSAux_id false l hl

/-- On text whose characters are all the letter a, every sanitation step of
`bot.py` lines 261-275 is the identity: no template marker occurs and no
whitespace is present. -/
theorem sanitize_all_a (l : Str) (hl : ∀ c ∈ l, c = 'a') : sanitize l = l := by
  have hlt : ∀ c ∈ l, (('<' : Char) == c) = false := by
    intro c hc; rw [hl c hc]; decide
  have hsh : ∀ c ∈ l, (('#' : Char) == c) = false := by
    intro c hc; rw [hl c hc]; decide
  have hws : ∀ c ∈ l, isPyWS c = false := by
    intro c hc; rw [hl c hc]; decide
  rw [sanitize]
  simp only [show tagAssistant = '<' :: "|im_start|>assistant".data from rfl,
    show tagStart = '<' :: "|im_start|>".data from rfl,
    show tagEnd = '<' :: "|im_end|>".data from rfl,
    show rolePromptMarker = '#' :: " Роль и задачи ассистента".data from rfl,
    containsSub_eq_false _ _ _ hlt, containsSub_eq_false _ _ _ hsh,
    pyReplace_id _ _ _ _ hlt, pyStrip_id _ hws, collapseWS_id _ hws,
    Bool.false_eq_true, if_false]

/-- On all-a text the extraction of `bot.py` lines 255-259 returns the
result field unchanged (it is nonempty and unaffected by `strip`). -/
theorem extractAnswer_all_a (l rp : Str) (hne : l ≠ [])
    (hl : ∀ c ∈ l, c = 'a') : extractAnswer l rp = l := by
  have hws : ∀ c ∈ l, isPyWS c = false := by
    intro c hc; rw [hl c hc]; decide
  rw [extractAnswer]
  simp only [pyStrip_id _ hws]
  rw [if_neg (by simpa [List.isEmpty_iff] using hne)]

/-! ## Helper lemmas: the handler's control paths -/

theorem handle_message_success (st : BotState) (env : Env) (uid : Int)
    (un : Option Str) (text : Str)
    (h1 : st.is_initialized = true) (h2 : st.qa_chain = true)
    (hq1 : (pyStrip text).isEmpty = false)
    (hq2 : ¬ (pyStrip text).length < 3)
    (hq3 : ¬ (pyStrip text).length > 1000)
    (docs : List Str) (rf rp : Str)
    (hr : env.retrieval = .ok docs) (hc : env.chain = .ok (.dict rf rp)) :
    handle_message st env uid un text =
      { messages :=
          msgProcessing :: (if env.editOk then [] else [msgSendFailed]),
        editedAnswer :=
          if env.editOk then some (postprocess (extractAnswer rf rp)) else none,
        logRecord :=
          if env.dbWriteOk then
            some { user_id := uid, username := un.getD "unknown".data,
                   query := pyStrip text,
                   response := (postprocess (extractAnswer rf rp)).take 2000 }
          else none,
        retrievalInvoked := true, chainInvoked := true,
        logAttempted := true } := by
  simp only [handle_message, h1, h2, hq1, hq2, hq3, hr, hc, Bool.not_true,
    Bool.false_eq_true, if_false, ite_false]

theorem handle_message_success_ok (st : BotState) (env : Env) (uid : Int)
    (un : Option Str) (text : Str)
    (h1 : st.is_initialized = true) (h2 : st.qa_chain = true)
    (hq1 : (pyStrip text).isEmpty = false)
    (hq2 : ¬ (pyStrip text).length < 3)
    (hq3 : ¬ (pyStrip text).length > 1000)
    (docs : List Str) (rf rp : Str)
    (hr : env.retrieval = .ok docs) (hc : env.chain = .ok (.dict rf rp))
    (hdb : env.dbWriteOk = true) (hedit : env.editOk = true) :
    handle_message st env uid un text =
      { messages := [msgProcessing],
        editedAnswer := some (postprocess (extractAnswer rf rp)),
        logRecord :=
          some { user_id := uid, username := un.getD "unknown".data,
                 query := pyStrip text,
                 response := (postprocess (extractAnswer rf rp)).take 2000 },
        retrievalInvoked := true, chainInvoked := true,
        logAttempted := true } := by
  rw [handle_message_success st env uid un text h1 h2 hq1 hq2 hq3 docs rf rp
    hr hc, hdb, hedit]
  rfl

theorem handle_message_pipeline_failure (st : BotState) (env : Env)
    (uid : Int) (un : Option Str) (text : Str)
    (h1 : st.is_initialized = true) (h2 : st.qa_chain = true)
    (hq1 : (pyStrip text).isEmpty = false)
    (hq2 : ¬ (pyStrip text).length < 3)
    (hq3 : ¬ (pyStrip text).length > 1000)
    (hfail : pipelineFailed env) :
    (handle_message st env uid un text).messages =
      [msgProcessing, msgGenericError] ∧
    (handle_message st env uid un text).editedAnswer = none ∧
    (handle_message st env uid un text).logRecord = none ∧
    (handle_message st env uid un text).logAttempted = false := by
  rcases hfail with ⟨e, he⟩ | ⟨e, he⟩ | he
  · simp [handle_message, h1, h2, hq1, hq2, hq3, he]
  · cases hr : env.retrieval with
    | error f => simp [handle_message, h1, h2, hq1, hq2, hq3, hr]
    | ok docs => simp [handle_message, h1, h2, hq1, hq2, hq3, hr, he]
  · cases hr : env.retrieval with
    | error f => simp [handle_message, h1, h2, hq1, hq2, hq3, hr]
    | ok docs => simp [handle_message, h1, h2, hq1, hq2, hq3, hr, he]

theorem handle_message_retrieval_runs (st : BotState) (env : Env)
    (uid : Int) (un : Option Str) (text : Str)
    (h1 : st.is_initialized = true) (h2 : st.qa_chain = true)
    (hq1 : (pyStrip text).isEmpty = false)
    (hq2 : ¬ (pyStrip text).length < 3)
    (hq3 : ¬ (pyStrip text).length > 1000) :
    (handle_message st env uid un text).retrievalInvoked = true := by
  simp only [handle_message, h1, h2, hq1, hq2, hq3, Bool.not_true,
    Bool.false_eq_true, if_false, ite_false]
  cases env.retrieval with
  | error e => rfl
  | ok docs =>
    cases env.chain with
    | error e => rfl
    | ok v => cases v <;> rfl

theorem pyStrip_replicate_a (n : Nat) :
    pyStrip (List.replicate n 'a') = List.replicate n 'a' :=
  pyStrip_id _ (fun c hc => by rw [List.eq_of_mem_replicate hc]; decide)

theorem handle_message_empty_reject (st : BotState) (env : Env) (uid : Int)
    (un : Option Str) (text : Str)
    (h1 : st.is_initialized = true) (hq : (pyStrip text).isEmpty = true) :
    handle_message st env uid un text = replyOnly [msgEmptyQuery] := by
  simp only [handle_message, h1, hq, Bool.not_true, Bool.false_eq_true,
    if_false, if_true]

theorem handle_message_short_reject (st : BotState) (env : Env) (uid : Int)
    (un : Option Str) (text : Str)
    (h1 : st.is_initialized = true) (hq : (pyStrip text).isEmpty = false)
    (hlen : (pyStrip text).length < 3) :
    handle_message st env uid un text = replyOnly [msgTooShort] := by
  simp only [handle_message, h1, hq, hlen, Bool.not_true, Bool.false_eq_true,
    if_false, if_true]

theorem handle_message_long_reject (st : BotState) (env : Env) (uid : Int)
    (un : Option Str) (text : Str)
    (h1 : st.is_initialized = true) (hq : (pyStrip text).isEmpty = false)
    (hlen2 : ¬ (pyStrip text).length < 3)
    (hlen : (pyStrip text).length > 1000) :
    handle_message st env uid un text = replyOnly [msgTooLong] := by
  simp only [handle_message, h1, hq, hlen2, hlen, Bool.not_true,
    Bool.false_eq_true, if_false, if_true]

/-! ## Claim theorems -/

/-- C1: Resource initialization is staged in order: the vector store is
initialized first; when it fails (exception or falsy return) the recorded
failure cause is set and `init_qa_chain` is never invoked; the ready flag
`is_initialized` becomes true exactly when both the vector store and the QA
chain initialize successfully (and the return value agrees with it). -/
theorem c1_init_staging (vs : VSInit) (qa : QAInit) :
    ((initialize_resources vs qa).is_initialized = (vsOk vs && qaOk qa)) ∧
    ((initialize_resources vs qa).ret =
      (initialize_resources vs qa).is_initialized) ∧
    (vsOk vs = false →
      (initialize_resources vs qa).qaAttempted = false ∧
      (initialize_resources vs qa).initialization_error.isSome = true) := by
  cases vs with
  | vsError m => simp [initialize_resources, vsOk]
  | unexpected m => simp [initialize_resources, vsOk]
  | ok t =>
    cases t with
    | false => simp [initialize_resources, vsOk]
    | true =>
      cases qa with
      | qaError m => simp [initialize_resources, vsOk, qaOk]
      | ok t2 sp => cases t2 <;> simp [initialize_resources, vsOk, qaOk]

/-- Witness for C1 at a concrete failing vector-store outcome. -/
theorem c1_init_staging_witness :
    (initialize_resources (VSInit.vsError "boom".data)
      (QAInit.ok true "sp".data)).qaAttempted = false ∧
    (initialize_resources (VSInit.vsError "boom".data)
      (QAInit.ok true "sp".data)).initialization_error.isSome = true :=
  (c1_init_staging (VSInit.vsError "boom".data)
    (QAInit.ok true "sp".data)).2.2 rfl

/-- C2: When the ready flag is false the handler replies with exactly the
not-ready message — which embeds the recorded failure cause when one is
known — and invokes no pipeline stage: no retrieval, no generation, and no
audit-log write. -/
theorem c2_not_ready_reject (st : BotState) (env : Env) (uid : Int)
    (un : Option Str) (text : Str) (h : st.is_initialized = false) :
    handle_message st env uid un text =
      replyOnly [notReadyMessage st.initialization_error] ∧
    (∀ c, st.initialization_error = some c →
      ∃ pre, notReadyMessage st.initialization_error = pre ++ c) := by
  constructor
  · simp [handle_message, h]
  · intro c hc
    exact ⟨msgNotReadyHead ++ msgInitCauseHead,
      by simp [notReadyMessage, hc]⟩

/-- Witness for C2 at a concrete not-ready state with a recorded cause. -/
theorem c2_not_ready_witness :
    handle_message (BotState.mk false (some "cause".data) true)
        (Env.mk (.ok []) (.ok ChainValue.falsy) true true) 1 none "hi".data =
      replyOnly [notReadyMessage (some "cause".data)] ∧
    (∃ pre, notReadyMessage (some "cause".data) = pre ++ "cause".data) :=
  ⟨(c2_not_ready_reject (BotState.mk false (some "cause".data) true)
      (Env.mk (.ok []) (.ok ChainValue.falsy) true true) 1 none "hi".data
      rfl).1,
   (c2_not_ready_reject (BotState.mk false (some "cause".data) true)
      (Env.mk (.ok []) (.ok ChainValue.falsy) true true) 1 none "hi".data
      rfl).2 "cause".data rfl⟩

/-- C3: Validation boundaries of the handler in a ready state: the empty
question, a 2-character question and a 1001-character question are each
rejected with their template reply and without touching the pipeline, while
a 3-character and a 1000-character question pass validation and reach the
retrieval stage. -/
theorem c3_validation_boundaries (st : BotState) (env : Env) (uid : Int)
    (un : Option Str)
    (h1 : st.is_initialized = true) (h2 : st.qa_chain = true) :
    handle_message st env uid un [] = replyOnly [msgEmptyQuery] ∧
    handle_message st env uid un (List.replicate 2 'a') =
      replyOnly [msgTooShort] ∧
    handle_message st env uid un (List.replicate 1001 'a') =
      replyOnly [msgTooLong] ∧
    (handle_message st env uid un (List.replicate 3 'a')).retrievalInvoked =
      true ∧
    (handle_message st env uid un (List.replicate 1000 'a')).retrievalInvoked =
      true := by
  refine ⟨?_, ?_, ?_, ?_, ?_⟩
  · exact handle_message_empty_reject st env uid un [] h1 rfl
  · exact handle_message_short_reject st env uid un _ h1
      (by rw [pyStrip_replicate_a]; rfl)
      (by rw [pyStrip_replicate_a, List.length_replicate]; omega)
  · exact handle_message_long_reject st env uid un _ h1
      (by rw [pyStrip_replicate_a]; rfl)
      (by rw [pyStrip_replicate_a, List.length_replicate]; omega)
      (by rw [pyStrip_replicate_a, List.length_replicate]; omega)
  · exact handle_message_retrieval_runs st env uid un _ h1 h2
      (by rw [pyStrip_replicate_a]; rfl)
      (by rw [pyStrip_replicate_a, List.length_replicate]; omega)
      (by rw [pyStrip_replicate_a, List.length_replicate]; omega)
  · exact handle_message_retrieval_runs st env uid un _ h1 h2
      (by rw [pyStrip_replicate_a]; rfl)
      (by rw [pyStrip_replicate_a, List.length_replicate]; omega)
      (by rw [pyStrip_replicate_a, List.length_replicate]; omega)

/-- Witness for C3 in a concrete ready state. -/
theorem c3_validation_witness :
    handle_message (BotState.mk true none true)
        (Env.mk (.ok []) (.ok ChainValue.falsy) true true) 1 none [] =
      replyOnly [msgEmptyQuery] ∧
    handle_message (BotState.mk true none true)
        (Env.mk (.ok []) (.ok ChainValue.falsy) true true) 1 none
        (List.replicate 2 'a') = replyOnly [msgTooShort] ∧
    handle_message (BotState.mk true none true)
        (Env.mk (.ok []) (.ok ChainValue.falsy) true true) 1 none
        (List.replicate 1001 'a') = replyOnly [msgTooLong] ∧
    (handle_message (BotState.mk true none true)
        (Env.mk (.ok []) (.ok ChainValue.falsy) true true) 1 none
        (List.replicate 3 'a')).retrievalInvoked = true ∧
    (handle_message (BotState.mk true none true)
        (Env.mk (.ok []) (.ok ChainValue.falsy) true true) 1 none
        (List.replicate 1000 'a')).retrievalInvoked = true :=
  c3_validation_boundaries (BotState.mk true none true)
    (Env.mk (.ok []) (.ok ChainValue.falsy) true true) 1 none rfl rfl

/-- C4 counterexample: on a raw generation output of 4001 letters the
handler's reply is 4044 characters long — the code cuts to 4000 and then
appends the 44-character truncation notice, so the answer sent to the user
exceeds the configured maximum answer length of 4000. -/
theorem c4_length_counterexample :
    ∃ a, (handle_message (BotState.mk true none true)
        (Env.mk (.ok []) (.ok (ChainValue.dict (List.replicate 4001 'a') []))
          true true) 1 none "abc".data).editedAnswer = some a ∧
      MAX_ANSWER_LEN < a.length ∧ a.length = 4044 := by
  have hmem : ∀ c ∈ List.replicate 4001 'a', c = 'a' :=
    fun c hc => List.eq_of_mem_replicate hc
  have hne : List.replicate 4001 'a' ≠ [] :=
    List.length_pos.mp (by rw [List.length_replicate]; omega)
  have hext : extractAnswer (List.replicate 4001 'a') [] =
      List.replicate 4001 'a' := extractAnswer_all_a _ _ hne hmem
  have hpp : postprocess (extractAnswer (List.replicate 4001 'a') []) =
      (List.replicate 4001 'a').take MAX_ANSWER_LEN ++ truncationNotice := by
    rw [hext, postprocess, sanitize_all_a _ hmem]
    rw [if_pos (by rw [List.length_replicate]; decide)]
  refine ⟨(List.replicate 4001 'a').take MAX_ANSWER_LEN ++ truncationNotice,
    ?_, ?_, ?_⟩
  · rw [handle_message_success (BotState.mk true none true) _ 1 none
      "abc".data rfl rfl (by decide) (by decide) (by decide) [] _ _ rfl rfl]
    exact congrArg some hpp
  · rw [List.length_append, List.length_take, List.length_replicate,
      show truncationNotice.length = 44 from rfl]
    simp only [MAX_ANSWER_LEN]
    omega
  · rw [List.length_append, List.length_take, List.length_replicate,
      show truncationNotice.length = 44 from rfl]
    simp only [MAX_ANSWER_LEN]
    omega

/-- C4 (amended): the post-processed answer is at most the maximum answer
length plus the 44-character truncation notice; the notice is appended
exactly when the sanitized raw output exceeds 4000 characters, and when it
is within the limit the answer is the sanitized output unchanged — so the
answer is at most 4044 characters, not 4000. -/
theorem c4_truncation_amended (raw : Str) :
    ((sanitize raw).length ≤ MAX_ANSWER_LEN →
      postprocess raw = sanitize raw ∧ answerTruncated raw = false) ∧
    (MAX_ANSWER_LEN < (sanitize raw).length →
      postprocess raw = (sanitize raw).take MAX_ANSWER_LEN ++
        truncationNotice ∧
      answerTruncated raw = true ∧
      (postprocess raw).length = MAX_ANSWER_LEN + truncationNotice.length) ∧
    (postprocess raw).length ≤ MAX_ANSWER_LEN + truncationNotice.length := by
  refine ⟨?_, ?_, ?_⟩
  · intro h
    constructor
    · rw [postprocess, if_neg (by omega)]
    · rw [answerTruncated]
      simp only [gt_iff_lt, decide_eq_false_iff_not, not_lt]
      exact h
  · intro h
    refine ⟨?_, ?_, ?_⟩
    · rw [postprocess, if_pos (by omega)]
    · rw [answerTruncated]
      simp only [gt_iff_lt, decide_eq_true_eq]
      exact h
    · rw [postprocess, if_pos (by omega)]
      rw [List.length_append, List.length_take]
      omega
  · by_cases h : (sanitize raw).length ≤ MAX_ANSWER_LEN
    · rw [postprocess, if_neg (by omega)]
      omega
    · rw [postprocess, if_pos (by omega)]
      rw [List.length_append, List.length_take]
      omega

/-- Witness for the amended C4 on a short raw output. -/
theorem c4_truncation_witness :
    postprocess "abc".data = sanitize "abc".data ∧
    answerTruncated "abc".data = false :=
  (c4_truncation_amended "abc".data).1 (by decide)

/-- C5 counterexample: with a recorded initialization failure cause, the
not-ready reply shown to the user contains the internal exception text
verbatim — the handler interpolates `initialization_error` (built from
`str(e)`) into the message. -/
theorem c5_not_ready_leak_counterexample :
    (handle_message
        (BotState.mk false (some "ValueError: boom".data) true)
        (Env.mk (.ok []) (.ok ChainValue.falsy) true true)
        1 none "hi".data).messages =
      [msgNotReadyHead ++ msgInitCauseHead ++ "ValueError: boom".data] ∧
    (∃ pre post,
      msgNotReadyHead ++ msgInitCauseHead ++ "ValueError: boom".data =
        pre ++ "ValueError: boom".data ++ post) := by
  constructor
  · simp [handle_message, notReadyMessage, replyOnly]
  · exact ⟨msgNotReadyHead ++ msgInitCauseHead, [], by simp⟩

/-- C5 (amended): any exception at a pipeline stage (retrieval, generation,
or a falsy chain result) leaves the user with the fixed generic failure
template after the processing notice — independent of the exception's text,
which therefore never reaches the user from these stages; the not-ready
reply, however, does embed the recorded initialization failure cause
verbatim when one is known. -/
theorem c5_generic_template_amended (st : BotState) (env : Env) (uid : Int)
    (un : Option Str) (text : Str)
    (h1 : st.is_initialized = true) (h2 : st.qa_chain = true)
    (hq1 : (pyStrip text).isEmpty = false)
    (hq2 : ¬ (pyStrip text).length < 3)
    (hq3 : ¬ (pyStrip text).length > 1000)
    (hfail : pipelineFailed env) :
    (handle_message st env uid un text).messages =
      [msgProcessing, msgGenericError] ∧
    (handle_message st env uid un text).editedAnswer = none ∧
    (handle_message st env uid un text).logRecord = none ∧
    (∀ c, st.initialization_error = some c →
      ∃ pre, notReadyMessage st.initialization_error = pre ++ c) := by
  obtain ⟨hm, he, hl, _⟩ :=
    handle_message_pipeline_failure st env uid un text h1 h2 hq1 hq2 hq3 hfail
  refine ⟨hm, he, hl, ?_⟩
  intro c hc
  exact ⟨msgNotReadyHead ++ msgInitCauseHead, by simp [notReadyMessage, hc]⟩

/-- Witness for the amended C5 at a concrete retrieval exception. -/
theorem c5_generic_template_witness :
    (handle_message (BotState.mk true none true)
        (Env.mk (.error "socket closed".data) (.ok ChainValue.falsy) true
          true) 1 none "abc".data).messages =
      [msgProcessing, msgGenericError] ∧
    (handle_message (BotState.mk true none true)
        (Env.mk (.error "socket closed".data) (.ok ChainValue.falsy) true
          true) 1 none "abc".data).editedAnswer = none ∧
    (handle_message (BotState.mk true none true)
        (Env.mk (.error "socket closed".data) (.ok ChainValue.falsy) true
          true) 1 none "abc".data).logRecord = none :=
  ⟨(c5_generic_template_amended (BotState.mk true none true)
      (Env.mk (.error "socket closed".data) (.ok ChainValue.falsy) true true)
      1 none "abc".data rfl rfl (by decide) (by decide) (by decide)
      (Or.inl ⟨"socket closed".data, rfl⟩)).1,
   (c5_generic_template_amended (BotState.mk true none true)
      (Env.mk (.error "socket closed".data) (.ok ChainValue.falsy) true true)
      1 none "abc".data rfl rfl (by decide) (by decide) (by decide)
      (Or.inl ⟨"socket closed".data, rfl⟩)).2.1,
   (c5_generic_template_amended (BotState.mk true none true)
      (Env.mk (.error "socket closed".data) (.ok ChainValue.falsy) true true)
      1 none "abc".data rfl rfl (by decide) (by decide) (by decide)
      (Or.inl ⟨"socket closed".data, rfl⟩)).2.2.1⟩

/-- C6 counterexample: an index built from an empty corpus is not empty —
`init_vector_store` adds the placeholder text at creation — so retrieval
against it returns that placeholder chunk, not an empty sequence. -/
theorem c6_fresh_store_counterexample :
    init_vector_store (.ok ()) false (.ok []) (.ok ()) =
      .ok [initialDocumentText] ∧
    retrieve [initialDocumentText] "вопрос".data 5 = [initialDocumentText] ∧
    [initialDocumentText] ≠ ([] : List Str) := by
  refine ⟨rfl, rfl, ?_⟩
  simp

/-- C6 (amended): retrieval against a freshly built index (the empty-corpus
path of `init_vector_store`) does not raise; it returns the single
placeholder chunk "Initial empty document" inserted at creation rather than
an empty sequence, and prompt assembly proceeds with that placeholder as the
context section rather than an empty one. -/
theorem c6_fresh_store_amended (q : Str) (k : Nat) (hk : 0 < k) :
    init_vector_store (.ok ()) false (.ok []) (.ok ()) =
      .ok [initialDocumentText] ∧
    retrieve [initialDocumentText] q k = [initialDocumentText] ∧
    joinDocs (retrieve [initialDocumentText] q k) = initialDocumentText := by
  refine ⟨rfl, ?_, ?_⟩
  · cases k with
    | zero => omega
    | succ n => simp [retrieve]
  · cases k with
    | zero => omega
    | succ n => simp [retrieve, joinDocs, List.intercalate]

/-- Witness for the amended C6 at k = 5. -/
theorem c6_fresh_store_witness :
    init_vector_store (.ok ()) false (.ok []) (.ok ()) =
      .ok [initialDocumentText] ∧
    retrieve [initialDocumentText] "q".data 5 = [initialDocumentText] ∧
    joinDocs (retrieve [initialDocumentText] "q".data 5) =
      initialDocumentText :=
  c6_fresh_store_amended "q".data 5 (by omega)

/-- C7: a load failure of an existing store never hard-fails index
initialization: when the storage directory is absent a fresh store is built,
and when it is present but loading raises, the initializer falls through to
building a new store — in both cases behaving exactly like the fresh-build
path, whatever the build outcome. -/
theorem c7_load_failure_rebuild (loadErr : Str)
    (loadRes : Except Str (List Str)) (buildRes : Except Str Unit) :
    init_vector_store (.ok ()) true (.error loadErr) (.ok ()) =
      .ok [initialDocumentText] ∧
    init_vector_store (.ok ()) false loadRes (.ok ()) =
      .ok [initialDocumentText] ∧
    init_vector_store (.ok ()) true (.error loadErr) buildRes =
      init_vector_store (.ok ()) false loadRes buildRes :=
  ⟨rfl, rfl, rfl⟩

/-- C8: when the audit-log write fails on a successfully generated answer,
the failure is swallowed: no record is committed, yet the answer is still
delivered to the user afterwards and no extra error message is sent. -/
theorem c8_audit_failure_swallowed (st : BotState) (env : Env) (uid : Int)
    (un : Option Str) (text : Str)
    (h1 : st.is_initialized = true) (h2 : st.qa_chain = true)
    (hq1 : (pyStrip text).isEmpty = false)
    (hq2 : ¬ (pyStrip text).length < 3)
    (hq3 : ¬ (pyStrip text).length > 1000)
    (docs : List Str) (rf rp : Str)
    (hr : env.retrieval = .ok docs) (hc : env.chain = .ok (.dict rf rp))
    (hdb : env.dbWriteOk = false) (hedit : env.editOk = true) :
    (handle_message st env uid un text).logRecord = none ∧
    (handle_message st env uid un text).logAttempted = true ∧
    (handle_message st env uid un text).editedAnswer =
      some (postprocess (extractAnswer rf rp)) ∧
    (handle_message st env uid un text).messages = [msgProcessing] := by
  rw [handle_message_success st env uid un text h1 h2 hq1 hq2 hq3 docs rf rp
    hr hc]
  simp [hdb, hedit]

/-- Witness for C8 at a concrete failing database write. -/
theorem c8_audit_witness :
    (handle_message (BotState.mk true none true)
        (Env.mk (.ok []) (.ok (ChainValue.dict "ok".data [])) false true)
        1 none "abc".data).logRecord = none ∧
    (handle_message (BotState.mk true none true)
        (Env.mk (.ok []) (.ok (ChainValue.dict "ok".data [])) false true)
        1 none "abc".data).logAttempted = true ∧
    (handle_message (BotState.mk true none true)
        (Env.mk (.ok []) (.ok (ChainValue.dict "ok".data [])) false true)
        1 none "abc".data).editedAnswer =
      some (postprocess (extractAnswer "ok".data [])) ∧
    (handle_message (BotState.mk true none true)
        (Env.mk (.ok []) (.ok (ChainValue.dict "ok".data [])) false true)
        1 none "abc".data).messages = [msgProcessing] :=
  c8_audit_failure_swallowed (BotState.mk true none true)
    (Env.mk (.ok []) (.ok (ChainValue.dict "ok".data [])) false true)
    1 none "abc".data rfl rfl (by decide) (by decide) (by decide)
    [] "ok".data [] rfl rfl rfl rfl

/-- C9: the LLM pipeline is constructed at most once per process: in any
call sequence whose first call's load succeeds with handle p, that first
call performs the load, and every subsequent call performs no load and
returns the same cached handle p unchanged. -/
theorem c9_singleton_pipeline (p : Nat) (rest : List (Except Str Nat)) :
    runInitSequence none (Except.ok p :: rest) =
      (Except.ok p, true) :: rest.map (fun _ => (Except.ok p, false)) := by
  have cached : ∀ ls : List (Except Str Nat),
      runInitSequence (some p) ls = ls.map (fun _ => (Except.ok p, false)) := by
    intro ls
    induction ls with
    | nil => rfl
    | cons a as ih => simp [runInitSequence, init_llm_pipeline, ih]
  simp [runInitSequence, init_llm_pipeline, cached]

/-- C10: the audit record of a successfully answered query stores the first
2000 characters of the post-processed answer; whenever the delivered answer
is longer than 2000 characters the stored response is a strict, proper
prefix of it, so it differs from what the user received. -/
theorem c10_log_truncation (st : BotState) (env : Env) (uid : Int)
    (un : Option Str) (text : Str)
    (h1 : st.is_initialized = true) (h2 : st.qa_chain = true)
    (hq1 : (pyStrip text).isEmpty = false)
    (hq2 : ¬ (pyStrip text).length < 3)
    (hq3 : ¬ (pyStrip text).length > 1000)
    (docs : List Str) (rf rp : Str)
    (hr : env.retrieval = .ok docs) (hc : env.chain = .ok (.dict rf rp))
    (hdb : env.dbWriteOk = true) (hedit : env.editOk = true) :
    (handle_message st env uid un text).editedAnswer =
      some (postprocess (extractAnswer rf rp)) ∧
    (handle_message st env uid un text).logRecord =
      some { user_id := uid, username := un.getD "unknown".data,
             query := pyStrip text,
             response := (postprocess (extractAnswer rf rp)).take 2000 } ∧
    (2000 < (postprocess (extractAnswer rf rp)).length →
      (postprocess (extractAnswer rf rp)).take 2000 ≠
        postprocess (extractAnswer rf rp) ∧
      ∃ rest, rest ≠ [] ∧
        (postprocess (extractAnswer rf rp)).take 2000 ++ rest =
          postprocess (extractAnswer rf rp)) := by
  have H := handle_message_success_ok st env uid un text h1 h2 hq1 hq2 hq3
    docs rf rp hr hc hdb hedit
  refine ⟨?_, ?_, ?_⟩
  · rw [H]
  · rw [H]
  · intro hlen
    constructor
    · intro heq
      have := congrArg List.length heq
      rw [List.length_take] at this
      omega
    · refine ⟨(postprocess (extractAnswer rf rp)).drop 2000, ?_,
        List.take_append_drop 2000 _⟩
      intro hnil
      have := congrArg List.length hnil
      rw [List.length_drop, List.length_nil] at this
      omega

/-- Witness for C10 at a concrete successful run. -/
theorem c10_log_truncation_witness :
    (handle_message (BotState.mk true none true)
        (Env.mk (.ok [])
          (.ok (ChainValue.dict (List.replicate 2500 'a') [])) true true)
        1 none "abc".data).editedAnswer =
      some (postprocess (extractAnswer (List.replicate 2500 'a') [])) ∧
    (handle_message (BotState.mk true none true)
        (Env.mk (.ok [])
          (.ok (ChainValue.dict (List.replicate 2500 'a') [])) true true)
        1 none "abc".data).logRecord =
      some { user_id := 1,
             username := (none : Option Str).getD "unknown".data,
             query := pyStrip "abc".data,
             response :=
               (postprocess
                 (extractAnswer (List.replicate 2500 'a') [])).take 2000 } ∧
    ((postprocess (extractAnswer (List.replicate 2500 'a') [])).take 2000 ≠
      postprocess (extractAnswer (List.replicate 2500 'a') []) ∧
    ∃ rest, rest ≠ [] ∧
      (postprocess
        (extractAnswer (List.replicate 2500 'a') [])).take 2000 ++ rest =
        postprocess (extractAnswer (List.replicate 2500 'a') [])) := by
  have hmem : ∀ c ∈ List.replicate 2500 'a', c = 'a' :=
    fun c hc => List.eq_of_mem_replicate hc
  have hne : List.replicate 2500 'a' ≠ [] :=
    List.length_pos.mp (by rw [List.length_replicate]; omega)
  have hX : postprocess (extractAnswer (List.replicate 2500 'a') []) =
      List.replicate 2500 'a' := by
    rw [extractAnswer_all_a _ _ hne hmem, postprocess, sanitize_all_a _ hmem]
    rw [if_neg (by rw [List.length_replicate]; simp [MAX_ANSWER_LEN])]
  have hlen :
      2000 < (postprocess (extractAnswer (List.replicate 2500 'a') [])).length := by
    rw [hX, List.length_replicate]; omega
  have C := c10_log_truncation (BotState.mk true none true)
    (Env.mk (.ok []) (.ok (ChainValue.dict (List.replicate 2500 'a') []))
      true true)
    1 none "abc".data rfl rfl (by decide) (by decide) (by decide)
    [] (List.replicate 2500 'a') [] rfl rfl rfl rfl
  exact ⟨C.1, C.2.1, C.2.2 hlen⟩

end LFPBot
